import Mathlib

/-!
Shallow embedding of `src/maxprotein.hh` (classes `Food`, and the functions
`filter_food_vector`, `greedy_max_protein`, `exhaustive_max_protein`),
together with theorems settling the specification claims about them.

Conventions of the embedding:
  - `Food` mirrors the C++ `Food` class.  Its constructor asserts that all
    numeric fields are non-negative, so the numeric fields are modelled as
    `Nat`; caller-supplied parameters (`min_kcal`, `max_kcal`, `total_size`,
    `total_kcal`) are C++ `int`s with no such guarantee and are modelled as
    `Int`.  Overflow plays no role in any claim, so machine arithmetic is
    modelled as unbounded.
  - A `FoodVector` is a `List Food` (the shared pointers only share immutable
    records, so value semantics are equivalent).
  - C++ control flow with undefined behaviour (reading an uninitialized
    variable, indexing a vector out of range, `erase` at an invalid position)
    is modelled totally: the function returns `none` on those paths, `some r`
    on defined executions.  `assert` failure is likewise modelled as `none`.
-/

/-- One food item in the USDA database (`class Food`): description, amount
description, grams per sample, kilocalories per sample, grams of protein per
sample.  The constructor asserts non-negativity of the numeric fields, hence
`Nat`. -/
structure Food where
  description : String
  amount : String
  amount_g : Nat
  kcal : Nat
  protein_g : Nat
deriving DecidableEq, Repr

/-- `sum_food_vector`, kilocalorie component: `total_kcal += food->kcal()`
over the vector, starting from 0. -/
def sum_kcal (foods : List Food) : Int :=
  foods.foldl (fun acc f => acc + (f.kcal : Int)) 0

/-- `sum_food_vector`, protein component: `total_protein_g += food->protein_g()`
over the vector, starting from 0. -/
def sum_protein_g (foods : List Food) : Int :=
  foods.foldl (fun acc f => acc + (f.protein_g : Int)) 0

/-- The loop of `filter_food_vector`:
`for(int n = 0; n < size && total_size_counter < total_size; n++)` with body
`if(source[n]->kcal() != 0 && source[n]->kcal() >= min_kcal &&
source[n]->kcal() <= max_kcal) { push_back; total_size_counter++; }`.
The list argument is the remaining suffix of `source`; `counter` is
`total_size_counter`. -/
def filterGo (min_kcal max_kcal total_size : Int) : List Food → Int → List Food
  | [], _ => []
  | f :: rest, counter =>
    if counter < total_size then
      if (f.kcal : Int) ≠ 0 ∧ min_kcal ≤ (f.kcal : Int) ∧ (f.kcal : Int) ≤ max_kcal then
        f :: filterGo min_kcal max_kcal total_size rest (counter + 1)
      else
        filterGo min_kcal max_kcal total_size rest counter
    else []

/-- `filter_food_vector(source, min_kcal, max_kcal, total_size)`. -/
def filter_food_vector (source : List Food) (min_kcal max_kcal total_size : Int) :
    List Food :=
  filterGo min_kcal max_kcal total_size source 0

/-- The inner scan of `greedy_max_protein`:
`for(int i = 0; i < size; i++) if(protein < todo[i]->protein_g()) { protein = ...;
protein_location = i; c = todo[i]->kcal(); }`.
`sel` holds the current `(protein_location, c)` pair, `none` while those two
variables are still uninitialized; `protein` is the running maximum.  The list
argument is the remaining suffix of `todo` and `i` its starting index. -/
def scanGo : List Food → Nat → Option (Nat × Int) → Int → Option (Nat × Int)
  | [], _, sel, _ => sel
  | f :: rest, i, sel, protein =>
    if protein < (f.protein_g : Int) then
      scanGo rest (i + 1) (some (i, (f.kcal : Int))) (f.protein_g : Int)
    else
      scanGo rest (i + 1) sel protein

/-- One full scan of `todo` with the running maximum `protein` reset to `0`,
starting from the `(protein_location, c)` state left by earlier iterations. -/
def greedyScan (todo : List Food) (sel : Option (Nat × Int)) : Option (Nat × Int) :=
  scanGo todo 0 sel 0

/-- The `while (size != 0)` loop of `greedy_max_protein`.  `fuel` is `size`
(the loop decrements it by one per iteration and the recursion follows it);
`sel` carries `(protein_location, c)` across iterations, as the C++ variables
do.  Reading them while still unassigned, or accessing/erasing at an index
outside `todo`, is undefined behaviour in the source and yields `none`. -/
def greedyGo (total_kcal : Int) :
    Nat → List Food → List Food → Int → Option (Nat × Int) → Option (List Food)
  | 0, _, result, _, _ => some result
  | fuel + 1, todo, result, result_cal, sel =>
    match greedyScan todo sel with
    | none => none
    | some (protein_location, c) =>
      if h : protein_location < todo.length then
        if result_cal + c ≤ total_kcal then
          greedyGo total_kcal fuel (todo.eraseIdx protein_location)
            (result ++ [todo.get ⟨protein_location, h⟩]) (result_cal + c)
            (some (protein_location, c))
        else
          greedyGo total_kcal fuel (todo.eraseIdx protein_location) result result_cal
            (some (protein_location, c))
      else none

/-- `greedy_max_protein(foods, total_kcal)`. -/
def greedy_max_protein (foods : List Food) (total_kcal : Int) : Option (List Food) :=
  greedyGo total_kcal foods.length foods [] 0 none

/-- The inner loop of `exhaustive_max_protein` building the trial subset:
`for (int j = 0; j < n; j++) if (((bits >> j) & 1) == 1) candidate.push_back(foods[j])`.
The list argument is the remaining suffix of `foods` and `j` its starting
index. -/
def buildGo : List Food → Nat → Nat → List Food
  | [], _, _ => []
  | f :: rest, bits, j =>
    if (bits >>> j) % 2 = 1 then f :: buildGo rest bits (j + 1)
    else buildGo rest bits (j + 1)

/-- The trial subset (`candidate`) selected by the bitmask `bits`. -/
def buildCandidate (foods : List Food) (bits : Nat) : List Food :=
  buildGo foods bits 0

/-- The mutable state of the bitmask loop of `exhaustive_max_protein`:
`total_calories`, `total_protein`, `total_protein_best` (all initialized to 0
once, before the loop — they are never reset inside it) and `result`. -/
structure ExhState where
  total_calories : Int
  total_protein : Int
  total_protein_best : Int
  result : List Food
deriving DecidableEq, Repr

/-- One iteration of the bitmask loop of `exhaustive_max_protein`.  Note that
`total_calories` and `total_protein` accumulate on top of the previous state:
the source increments them with `+=` and never resets them between iterations
(the `sum_food_vector` call that would have is commented out). -/
def exhStep (foods : List Food) (total_kcal : Int) (st : ExhState) (bits : Nat) :
    ExhState :=
  let candidate := buildCandidate foods bits
  let tc := st.total_calories + sum_kcal candidate
  let tp := st.total_protein + sum_protein_g candidate
  if tc ≤ total_kcal then
    if st.total_protein_best = 0 ∨ st.total_protein_best < tp then
      ⟨tc, tp, tp, candidate⟩
    else
      ⟨tc, tp, st.total_protein_best, st.result⟩
  else
    ⟨tc, tp, st.total_protein_best, st.result⟩

/-- `exhaustive_max_protein(foods, total_kcal)`: `assert(n < 64)` (modelled as
`none` when it fails), then `for (uint64_t bits = 0; bits < pow(2.0, n); bits++)`
folding `exhStep` (for `n < 64`, `pow(2.0, n)` is the exact double `2^n`). -/
def exhaustive_max_protein (foods : List Food) (total_kcal : Int) :
    Option (List Food) :=
  if foods.length < 64 then
    some (((List.range (2 ^ foods.length)).foldl (exhStep foods total_kcal)
      ⟨0, 0, 0, []⟩).result)
  else none

/-- Written from the spec's words for claim C5, to be compared with
`filter_food_vector`: keep, in original order, exactly the records `r` with
`r.kcal > 0` and `min_kcal <= r.kcal <= max_kcal`, truncated to the first
`total_size` of them. -/
def filterSpec (source : List Food) (min_kcal max_kcal total_size : Int) :
    List Food :=
  (source.filter (fun r =>
    decide (0 < r.kcal ∧ min_kcal ≤ (r.kcal : Int) ∧ (r.kcal : Int) ≤ max_kcal))).take
    total_size.toNat

/-- Concrete foods used by the claim witnesses and counterexamples. -/
def foodA : Food := ⟨"A", "serving", 0, 100, 5⟩

def foodB : Food := ⟨"B", "serving", 0, 200, 20⟩

def foodC : Food := ⟨"C", "serving", 0, 150, 15⟩

def foodP : Food := ⟨"P", "serving", 0, 10, 5⟩

def foodQ : Food := ⟨"Q", "serving", 0, 10, 6⟩

def foodZ : Food := ⟨"Z", "serving", 0, 1000, 0⟩

def foodN : Food := ⟨"N", "serving", 0, 5, 0⟩

def foodW : Food := ⟨"W", "serving", 0, 1, 0⟩

/-- Helper: the filter loop, started with counter `cnt`, returns the matching
records of the remaining suffix truncated to the next `total_size - cnt`
matches. -/
theorem filterGo_eq_take (mi ma ts : Int) (l : List Food) (cnt : Int) :
    filterGo mi ma ts l cnt
      = (l.filter (fun r =>
          decide (0 < r.kcal ∧ mi ≤ (r.kcal : Int) ∧ (r.kcal : Int) ≤ ma))).take
          (ts - cnt).toNat := by
  induction l generalizing cnt with
  | nil => simp [filterGo]
  | cons f rest ih =>
    have hEquiv : ((f.kcal : Int) ≠ 0 ∧ mi ≤ (f.kcal : Int) ∧ (f.kcal : Int) ≤ ma)
        ↔ (0 < f.kcal ∧ mi ≤ (f.kcal : Int) ∧ (f.kcal : Int) ≤ ma) := by
      constructor
      · rintro ⟨h1, h2, h3⟩
        exact ⟨by omega, h2, h3⟩
      · rintro ⟨h1, h2, h3⟩
        exact ⟨by omega, h2, h3⟩
    by_cases hc : cnt < ts
    · have hpos : (ts - cnt).toNat = (ts - (cnt + 1)).toNat + 1 := by omega
      by_cases hp : (f.kcal : Int) ≠ 0 ∧ mi ≤ (f.kcal : Int) ∧ (f.kcal : Int) ≤ ma
      · rw [filterGo, if_pos hc, if_pos hp, List.filter_cons_of_pos
          (by simpa using hEquiv.mp hp), hpos, List.take_succ_cons, ih]
      · rw [filterGo, if_pos hc, if_neg hp, List.filter_cons_of_neg
          (by simpa using fun h => hp (hEquiv.mpr h)), ih]
    · have h0 : (ts - cnt).toNat = 0 := by omega
      rw [filterGo, if_neg hc, h0, List.take_zero]

/-- Claim C5: `filter_food_vector` returns exactly the records `r` of the
source with `r.kcal > 0` and `min_kcal <= r.kcal <= max_kcal`, in their
original relative order, truncated to the first `total_size` such records; in
particular the output never contains a zero-calorie record and never contains
more than `total_size` records. -/
theorem filter_food_vector_matches_spec (source : List Food) (mi ma ts : Int) :
    filter_food_vector source mi ma ts = filterSpec source mi ma ts
      ∧ (∀ r ∈ filter_food_vector source mi ma ts, 0 < r.kcal)
      ∧ (filter_food_vector source mi ma ts).length ≤ ts.toNat := by
  have hmain : filter_food_vector source mi ma ts = filterSpec source mi ma ts := by
    have h := filterGo_eq_take mi ma ts source 0
    simpa [filter_food_vector, filterSpec] using h
  refine ⟨hmain, ?_, ?_⟩
  · intro r hr
    rw [hmain] at hr
    have hr2 : r ∈ (source.filter (fun r =>
        decide (0 < r.kcal ∧ mi ≤ (r.kcal : Int) ∧ (r.kcal : Int) ≤ ma))) :=
      List.mem_of_mem_take hr
    have := (List.mem_filter.mp hr2).2
    simp only [decide_eq_true_eq] at this
    exact this.1
  · rw [hmain]
    simp only [filterSpec, List.length_take]
    omega

/-- Claim C10: calling `filter_food_vector` with `total_size <= 0` returns the
empty vector, whatever the source and thresholds: the output-count bound is
checked before any record is admitted. -/
theorem filter_food_vector_nonpos_count (source : List Food) (mi ma ts : Int)
    (h : ts ≤ 0) : filter_food_vector source mi ma ts = [] := by
  have heq := filterGo_eq_take mi ma ts source 0
  have h0 : (ts - 0).toNat = 0 := by omega
  rw [filter_food_vector, heq, h0, List.take_zero]

/-- Witness for C10 at a concrete input: `total_size = 0` on a one-record
source yields the empty vector. -/
theorem filter_food_vector_nonpos_count_witness :
    ((0 : Int) ≤ 0) ∧ filter_food_vector [foodA] 0 1000 0 = [] :=
  ⟨by decide, filter_food_vector_nonpos_count [foodA] 0 1000 0 (by decide)⟩

/-- Claim C6: `exhaustive_max_protein` fails its `assert(n < 64)` precondition
check — modelled as returning `none`, never a truncated result — exactly when
the candidate sequence has 64 or more records; under the precondition
`n < 64` the assertion-failure branch is unreachable. -/
theorem exhaustive_max_protein_none_iff_oversize (foods : List Food) (k : Int) :
    exhaustive_max_protein foods k = none ↔ 64 ≤ foods.length := by
  unfold exhaustive_max_protein
  split
  · rename_i h
    exact iff_of_false (Option.some_ne_none _) (by omega)
  · rename_i h
    exact iff_of_true rfl (by omega)

/-- Claim C8: on an empty candidate sequence, `filter_food_vector`,
`greedy_max_protein` and `exhaustive_max_protein` all return an empty result
(rather than failing), for all thresholds and budgets. -/
theorem empty_candidates_empty_results (mi ma ts k : Int) :
    filter_food_vector [] mi ma ts = []
      ∧ greedy_max_protein [] k = some []
      ∧ exhaustive_max_protein [] k = some [] := by
  refine ⟨rfl, rfl, ?_⟩
  have hr : List.range 1 = [0] := rfl
  by_cases hk : (0 : Int) ≤ k <;>
    simp [exhaustive_max_protein, exhStep, buildCandidate, buildGo, sum_kcal,
      sum_protein_g, hr, hk]

/-- Helper: when every remaining record has zero protein, the scan condition
`protein < todo[i]->protein_g()` with running maximum `0` never fires, so the
`(protein_location, c)` state is left untouched. -/
theorem scanGo_all_zero : ∀ (l : List Food), (∀ r ∈ l, r.protein_g = 0) →
    ∀ (i : Nat) (sel : Option (Nat × Int)), scanGo l i sel 0 = sel
  | [], _, _, _ => rfl
  | f :: rest, hz, i, sel => by
    have hf : f.protein_g = 0 := hz f (List.mem_cons_self _ _)
    rw [scanGo, hf, if_neg (by simp)]
    exact scanGo_all_zero rest (fun r hr => hz r (List.mem_cons_of_mem _ hr)) (i + 1) sel

/-- Claim C9: on a non-empty candidate sequence whose records all have zero
protein, the first iteration's scan never assigns `protein_location` or `c`,
so the acceptance test and the erase read uninitialized variables; in the
total embedding the selection yields no record and the error branch is taken
(`none`). -/
theorem greedy_max_protein_all_zero_protein_none (foods : List Food) (k : Int)
    (hne : foods ≠ []) (hz : ∀ r ∈ foods, r.protein_g = 0) :
    greedy_max_protein foods k = none := by
  match foods, hne, hz with
  | f :: rest, _, hz =>
    have hscan : greedyScan (f :: rest) none = none := scanGo_all_zero _ hz 0 none
    show greedyGo k (rest.length + 1) (f :: rest) [] 0 none = none
    rw [greedyGo, hscan]

/-- Witness for C9 at a concrete input: a single zero-protein record. -/
theorem greedy_max_protein_all_zero_protein_none_witness :
    ([foodN] ≠ ([] : List Food)) ∧ (∀ r ∈ [foodN], r.protein_g = 0)
      ∧ greedy_max_protein [foodN] 7 = none :=
  ⟨by decide, by decide,
    greedy_max_protein_all_zero_protein_none [foodN] 7 (by decide) (by decide)⟩

/-- Claim C3: in the bitmask loop of `exhaustive_max_protein`, whenever the
calorie test of an iteration passes while `total_protein_best` is exactly 0,
the trial subset unconditionally replaces the stored best — no requirement
that its protein strictly exceed the best, so a best of 0 is treated exactly
like "no best yet found" and a later zero-protein qualifying subset overwrites
an earlier one. -/
theorem exhStep_zero_best_takes_trial (foods : List Food) (k : Int) (st : ExhState)
    (bits : Nat) (hbest : st.total_protein_best = 0)
    (hcal : st.total_calories + sum_kcal (buildCandidate foods bits) ≤ k) :
    (exhStep foods k st bits).result = buildCandidate foods bits
      ∧ (exhStep foods k st bits).total_protein_best
          = st.total_protein + sum_protein_g (buildCandidate foods bits) := by
  unfold exhStep
  rw [if_pos hcal, if_pos (Or.inl hbest)]
  exact ⟨rfl, rfl⟩

/-- Witness for C3 at a concrete input: the state already holds the qualifying
zero-protein subset `[foodN]`, and the zero-protein empty trial subset
(bitmask 0) still overwrites it. -/
theorem exhStep_zero_best_takes_trial_witness :
    ((⟨0, 0, 0, [foodN]⟩ : ExhState).total_protein_best = 0
        ∧ (⟨0, 0, 0, [foodN]⟩ : ExhState).total_calories
            + sum_kcal (buildCandidate [foodN] 0) ≤ 0)
      ∧ (exhStep [foodN] 0 ⟨0, 0, 0, [foodN]⟩ 0).result = buildCandidate [foodN] 0
      ∧ (exhStep [foodN] 0 ⟨0, 0, 0, [foodN]⟩ 0).total_protein_best
          = (⟨0, 0, 0, [foodN]⟩ : ExhState).total_protein
            + sum_protein_g (buildCandidate [foodN] 0) :=
  ⟨⟨by decide, by decide⟩,
    (exhStep_zero_best_takes_trial [foodN] 0 ⟨0, 0, 0, [foodN]⟩ 0 (by decide)
      (by decide)).1,
    (exhStep_zero_best_takes_trial [foodN] 0 ⟨0, 0, 0, [foodN]⟩ 0 (by decide)
      (by decide)).2⟩

/-- Claim C4: on candidates `[A(kcal=100,protein=5), B(kcal=200,protein=20),
C(kcal=150,protein=15)]` with budget 300, the greedy selector first selects B
(index 1, 200 kcal; accepted, consumed 200), then selects C from the remaining
`[A, C]` (index 1, 150 kcal; `200 + 150 ≤ 300` fails, so it is rejected but
still removed), then selects A (index 0, 100 kcal; `200 + 100 ≤ 300` holds, so
it is accepted), returning `[B, A]` with total kcal 300 and total protein 25. -/
theorem greedy_concrete_scenario :
    greedy_max_protein [foodA, foodB, foodC] 300 = some [foodB, foodA]
      ∧ greedyScan [foodA, foodB, foodC] none = some (1, 200)
      ∧ (0 : Int) + 200 ≤ 300
      ∧ List.eraseIdx [foodA, foodB, foodC] 1 = [foodA, foodC]
      ∧ greedyScan [foodA, foodC] (some (1, 200)) = some (1, 150)
      ∧ ¬((200 : Int) + 150 ≤ 300)
      ∧ List.eraseIdx [foodA, foodC] 1 = [foodA]
      ∧ greedyScan [foodA] (some (1, 150)) = some (0, 100)
      ∧ (200 : Int) + 100 ≤ 300
      ∧ sum_kcal [foodB, foodA] = 300
      ∧ sum_protein_g [foodB, foodA] = 25 := by
  decide

/-- Claim C2 is violated by the code (code bug): on candidates
`[A(kcal=100,protein=5), Z(kcal=1000,protein=0)]` with budget 200, the greedy
selector's second iteration finds no record with positive protein, so it
reuses the stale `protein_location = 0` and `c = 100` from the first
iteration, appends Z while charging only 100 kcal, and returns `[A, Z]` whose
total calories 1100 exceed the budget 200. -/
theorem greedy_budget_exceeded :
    greedy_max_protein [foodA, foodZ] 200 = some [foodA, foodZ]
      ∧ (200 : Int) < sum_kcal [foodA, foodZ] := by
  decide

/-- Claim C1 is violated by the code (code bug): `total_calories` and
`total_protein` are never reset between bitmask iterations, so on candidates
`[P(kcal=10,protein=5), Q(kcal=10,protein=6)]` with budget 10 the subset
`{Q}` is tested against the accumulated calories `10 + 10 = 20 > 10` and
rejected; the code returns `[P]` (protein 5) although `{Q}` is within budget
with strictly greater protein 6. -/
theorem exhaustive_accumulation_bug :
    exhaustive_max_protein [foodP, foodQ] 10 = some [foodP]
      ∧ sum_kcal [foodQ] ≤ 10
      ∧ sum_protein_g [foodP] < sum_protein_g [foodQ] := by
  decide

/-- Claim C7 is violated by the code (code bug): on the one-record all-zero-
protein candidate list `[W(kcal=1,protein=0)]` the first iteration's scan
assigns neither `protein_location` nor `c`, so the erase position is an
uninitialized value and the loop cannot complete its `|candidates|`
iterations; the total embedding aborts with `none` instead of removing
exactly one record. -/
theorem greedy_loop_aborts_on_zero_protein :
    greedy_max_protein [foodW] 3 = none := by
  decide
